import Mathlib

/-!
Verification development for the schriftbot-backend webhook servers.

The repository contains several near-duplicate Express/Deno servers that
receive Stripe webhook events and reconcile them into per-user Firestore
records.  We shallowly embed the data model and the update logic of each
variant:

* `index.js` — `invoice.payment_succeeded` handler that overwrites the
  `credits` field, an `invoice.payment_failed` branch that only logs, and a
  `customer.subscription.deleted` branch;
* `src/unnamed/part_000` — `invoice.paid` handler using
  `FieldValue.increment` and `arrayUnion`, with no duplicate check;
* `src/unnamed/part_002` — `updateFirestoreUser` with an idempotency
  pre-check and a client-side read-modify-write of `credits`;
* `src/unnamed/part_003` — `updateFirestoreUser` with the same pre-check
  and a server-side `FieldValue.increment`.

JavaScript numbers that may be `NaN` are modelled as `Option Int`
(`none` = `NaN`); absent/`null` string-valued fields are `Option String`
(the embedding collapses JS `null` and a missing field to `none`; the
strict-equality comparisons exercised by the claims only ever compare two
absent values or two present strings, where this is faithful).
-/

namespace Schriftbot

/-- A JavaScript number that may be `NaN` (`none`). -/
abbrev JsNum := Option Int

/-- Addition of JS numbers: `NaN` propagates. -/
def jsAdd (a b : JsNum) : JsNum :=
  match a, b with
  | some x, some y => some (x + y)
  | _, _ => none

/-- Models the JS expression `n || 0`: `NaN` (and an absent value) is falsy
and yields `0`; `0 || 0` is also `0`, so `some` values pass through. -/
def jsNumOrZero (n : JsNum) : Int :=
  n.getD 0

/-- Models the JS expression `v || d` on strings: `undefined`/`null` and the
empty string are falsy and yield the default `d`. -/
def jsOrStr (v : Option String) (d : String) : String :=
  match v with
  | none => d
  | some s => if s = "" then d else s

/-- Whitespace characters skipped by JS `parseInt` (the common ASCII ones:
space, tab, LF, VT, FF, CR). -/
def isJsWs (c : Char) : Bool :=
  c == ' ' || c == '\t' || c == '\n' || c == Char.ofNat 11 ||
    c == Char.ofNat 12 || c == '\r'

/-- Accumulates the maximal leading run of decimal digits. -/
def decNatAux (acc : Nat) : List Char → Nat
  | [] => acc
  | c :: cs => if c.isDigit then decNatAux (acc * 10 + (c.toNat - 48)) cs else acc

/-- Hexadecimal digit test for JS `parseInt` with a `0x` marker. -/
def isHexDig (c : Char) : Bool :=
  c.isDigit || decide ('a' ≤ c ∧ c ≤ 'f') || decide ('A' ≤ c ∧ c ≤ 'F')

/-- Value of a hexadecimal digit. -/
def hexVal (c : Char) : Nat :=
  if c.isDigit then c.toNat - 48
  else if decide ('a' ≤ c ∧ c ≤ 'f') then c.toNat - 87
  else c.toNat - 55

/-- Accumulates the maximal leading run of hexadecimal digits. -/
def hexNatAux (acc : Nat) : List Char → Nat
  | [] => acc
  | c :: cs => if isHexDig c then hexNatAux (acc * 16 + hexVal c) cs else acc

/-- Strips a leading sign character, returning whether the number is
negated and the remaining characters. -/
def stripSign (l : List Char) : Bool × List Char :=
  match l with
  | [] => (false, [])
  | c :: rest =>
    if c == '-' then (true, rest)
    else if c == '+' then (false, rest)
    else (false, c :: rest)

/-- Recognises a leading `0x`/`0X` marker, returning the characters after
it, or `none` when the input does not start with such a marker. -/
def dropHexMark (l : List Char) : Option (List Char) :=
  match l with
  | c0 :: c1 :: rest =>
    if c0 == '0' && (c1 == 'x' || c1 == 'X') then some rest else none
  | _ => none

/-- Applies a JS sign to a parsed magnitude. -/
def intOfSign (neg : Bool) (n : Nat) : Int :=
  if neg then -(n : Int) else (n : Int)

/-- The digit-run stage of `parseInt`: after the sign, detect a `0x`
hexadecimal marker, then parse the maximal leading digit run; `none`
models `NaN` (no digits at all). -/
def parseIntTail (sp : Bool × List Char) : Option Int :=
  match dropHexMark sp.2 with
  | some l2 =>
    match l2 with
    | [] => none
    | c :: _ => if isHexDig c then some (intOfSign sp.1 (hexNatAux 0 l2)) else none
  | none =>
    match sp.2 with
    | [] => none
    | c :: _ => if c.isDigit then some (intOfSign sp.1 (decNatAux 0 sp.2)) else none

/-- Model of JavaScript `parseInt(s)` with no radix argument: skip leading
whitespace, read an optional sign, then parse the digit run. -/
def parseIntJS (s : String) : Option Int :=
  parseIntTail (stripSign (s.toList.dropWhile isJsWs))

/-- `parseInt(product.metadata.credits || "0")` — the credits-metadata
resolution shared by every variant. -/
def resolveCredits (metaCredits : Option String) : JsNum :=
  parseIntJS (jsOrStr metaCredits "0")

/-- One element of the `payments` array of a user document.  The two entry
shapes occurring in the repository (part_000 writes
`{sessionId, amount, credits, date, status}`; part_002/part_003 write
`{invoiceId, credits, date}`) are combined, with `none` marking a field the
writing variant does not include. -/
structure LedgerEntry where
  sessionId : Option String
  invoiceId : Option String
  amount : Option Int
  credits : Option JsNum
  date : Option String
  status : Option String
deriving DecidableEq

/-- A document of the Firestore `users` collection, restricted to the
fields the webhook handlers read or write. -/
structure UserDoc where
  credits : JsNum
  isUnlimited : Bool
  plan : String
  lastPaymentStatus : Option String
  subscriptionId : Option String
  stripeCustomerId : Option String
  updatedAt : Option String
  payments : List LedgerEntry
deriving DecidableEq

/-- `FieldValue.arrayUnion`: appends the element unless an identical
element is already present. -/
def arrayUnion {α : Type} [DecidableEq α] (xs : List α) (x : α) : List α :=
  if x ∈ xs then xs else xs ++ [x]

/-- The `payments` array of a possibly-missing document (an absent document
has no entries). -/
def paymentsOf (doc : Option UserDoc) : List LedgerEntry :=
  match doc with
  | some u => u.payments
  | none => []

/-- The `credits` field of a possibly-missing document. -/
def docCredits (doc : Option UserDoc) : JsNum :=
  match doc with
  | some u => u.credits
  | none => none

/-- The `lastPaymentStatus` field of a possibly-missing document. -/
def docLastPaymentStatus (doc : Option UserDoc) : Option String :=
  match doc with
  | some u => u.lastPaymentStatus
  | none => none

/-- The `data` argument of `updateFirestoreUser` (part_002 / part_003). -/
structure DeltaData where
  creditsToAdd : JsNum
  isUnlimited : Bool
  planName : String
  subscriptionId : Option String
  customerId : Option String
  invoiceId : Option String
deriving DecidableEq

/-- The idempotency pre-check of `updateFirestoreUser`:
`doc.exists && doc.data().payments?.some((p) => p.invoiceId === data.invoiceId)`.
For a missing document or a missing `payments` array the check is false,
which coincides with `List.any` over the empty list. -/
def dupCheck (doc : Option UserDoc) (data : DeltaData) : Bool :=
  (paymentsOf doc).any fun p => decide (p.invoiceId = data.invoiceId)

/-- `doc.exists ? doc.data().credits || 0 : 0` — the client-side read of the
current balance in part_002. -/
def currentCredits002 (doc : Option UserDoc) : Int :=
  match doc with
  | some u => jsNumOrZero u.credits
  | none => 0

/-- The ledger entry `{invoiceId: data.invoiceId, credits: data.creditsToAdd,
date: new Date().toISOString()}` appended by part_002 and part_003. -/
def ledgerEntry23 (data : DeltaData) (now : String) : LedgerEntry :=
  { sessionId := none, invoiceId := data.invoiceId, amount := none,
    credits := some data.creditsToAdd, date := some now, status := none }

/-- The merge-`set` issued by part_002's `updateFirestoreUser`.  The new
`credits` value is computed client-side from the `snapshot` read at the
start of the call, while the `arrayUnion` transform is applied by the
server against the `current` document state. -/
def applyWrite002 (snapshot current : Option UserDoc) (data : DeltaData)
    (now : String) : UserDoc :=
  { credits :=
      if data.isUnlimited then some 999999
      else jsAdd (some (currentCredits002 snapshot)) data.creditsToAdd
    isUnlimited := data.isUnlimited
    plan := data.planName
    lastPaymentStatus := some "active"
    subscriptionId :=
      match current with
      | some u => u.subscriptionId
      | none => none
    stripeCustomerId := data.customerId
    updatedAt := some now
    payments := arrayUnion (paymentsOf current) (ledgerEntry23 data now) }

/-- `updateFirestoreUser` of part_002: read the document, skip when the
ledger already holds an entry for the delta's invoice id, otherwise issue
the merge-`set` (snapshot and current state coincide when the call runs
alone). -/
def updateFirestoreUser_part002 (doc : Option UserDoc) (data : DeltaData)
    (now : String) : Option UserDoc :=
  if dupCheck doc data then doc else some (applyWrite002 doc doc data now)

/-- The merge-`set` issued by part_003's `updateFirestoreUser`: `credits`
uses `FieldValue.increment`, applied by the server against the `current`
state (a missing document starts the field at the increment value).
`db.settings` enables `ignoreUndefinedProperties`, so an undefined
`customerId` is dropped from the write and the stored value survives. -/
def applyWrite003 (current : Option UserDoc) (data : DeltaData)
    (now : String) : UserDoc :=
  { credits :=
      if data.isUnlimited then some 999999
      else
        match current with
        | some u => jsAdd u.credits data.creditsToAdd
        | none => data.creditsToAdd
    isUnlimited := data.isUnlimited
    plan := data.planName
    lastPaymentStatus := some "active"
    subscriptionId :=
      match current with
      | some u => u.subscriptionId
      | none => none
    stripeCustomerId :=
      match data.customerId with
      | some c => some c
      | none =>
        match current with
        | some u => u.stripeCustomerId
        | none => none
    updatedAt := some now
    payments := arrayUnion (paymentsOf current) (ledgerEntry23 data now) }

/-- `updateFirestoreUser` of part_003. -/
def updateFirestoreUser_part003 (doc : Option UserDoc) (data : DeltaData)
    (now : String) : Option UserDoc :=
  if dupCheck doc data then doc else some (applyWrite003 doc data now)

/-- Two part_002 calls racing on the same document: both `get` the same
snapshot before either `set` lands, so both duplicate checks and both
client-side credit computations see the initial state; the writes then
serialize at the store. -/
def raceSameSnapshot_part002 (doc : Option UserDoc) (d1 d2 : DeltaData)
    (t1 t2 : String) : Option UserDoc :=
  let s1 := if dupCheck doc d1 then doc else some (applyWrite002 doc doc d1 t1)
  if dupCheck doc d2 then s1 else some (applyWrite002 doc s1 d2 t2)

/-- Two part_003 calls racing on the same document: both duplicate checks
read the initial snapshot, while each `FieldValue.increment` /
`arrayUnion` is applied by the server against the state left by the
preceding write. -/
def raceSameSnapshot_part003 (doc : Option UserDoc) (d1 d2 : DeltaData)
    (t1 t2 : String) : Option UserDoc :=
  let s1 := if dupCheck doc d1 then doc else some (applyWrite003 doc d1 t1)
  if dupCheck doc d2 then s1 else some (applyWrite003 s1 d2 t2)

/-- The `invoice.paid` fulfilment of part_000 (lines 43-102): resolve the
product metadata, then merge-`set` an incremented `credits` value and
`arrayUnion` a `{sessionId, amount, credits, date, status}` ledger entry.
There is no duplicate check. -/
def invoicePaidUpdate_part000 (doc : Option UserDoc) (invoiceId : String)
    (amountPaidCents : Int) (subId : String)
    (metaCredits metaIsUnlimited metaPlanName : Option String)
    (productName : String) (now : String) : Option UserDoc :=
  let creditsToAdd := resolveCredits metaCredits
  let isUnlimited := metaIsUnlimited == some "true"
  let planName := jsOrStr metaPlanName productName
  some
    { credits :=
        if isUnlimited then some 999999
        else
          match doc with
          | some u => jsAdd u.credits creditsToAdd
          | none => creditsToAdd
      isUnlimited := isUnlimited
      plan := planName
      lastPaymentStatus := some "active"
      subscriptionId := some subId
      stripeCustomerId :=
        match doc with
        | some u => u.stripeCustomerId
        | none => none
      updatedAt := some now
      payments :=
        arrayUnion (paymentsOf doc)
          -- the code stores `invoice.amount_paid / 100`; the entry records
          -- the cents value, since the constant factor 100 carries no
          -- information and no handler reads the field back
          { sessionId := some invoiceId, invoiceId := none,
            amount := some amountPaidCents,
            credits := some creditsToAdd, date := some now,
            status := some "completed" } }

/-- The `customer.subscription.deleted` merge-`set` of index.js
(lines 136-145): `credits: 0`, `isUnlimited: false`, `plan: "expired"`,
`lastPaymentStatus: "canceled"`, `updatedAt`; other fields are preserved. -/
def cancelIndex (doc : Option UserDoc) (now : String) : Option UserDoc :=
  some
    { credits := some 0
      isUnlimited := false
      plan := "expired"
      lastPaymentStatus := some "canceled"
      subscriptionId :=
        match doc with
        | some u => u.subscriptionId
        | none => none
      stripeCustomerId :=
        match doc with
        | some u => u.stripeCustomerId
        | none => none
      updatedAt := some now
      payments := paymentsOf doc }

/-- The `customer.subscription.deleted` merge-`set` of part_002
(lines 125-133): `credits: 0`, `isUnlimited: false`, `plan: "expired"`,
`updatedAt` — note that `lastPaymentStatus` is not written and therefore
keeps its previous value. -/
def cancel_part002 (doc : Option UserDoc) (now : String) : Option UserDoc :=
  some
    { credits := some 0
      isUnlimited := false
      plan := "expired"
      lastPaymentStatus := docLastPaymentStatus doc
      subscriptionId :=
        match doc with
        | some u => u.subscriptionId
        | none => none
      stripeCustomerId :=
        match doc with
        | some u => u.stripeCustomerId
        | none => none
      updatedAt := some now
      payments := paymentsOf doc }

/-- The invoice object of an `invoice.payment_succeeded` event, restricted
to the fields index.js reads (`invoice.subscription` is falsy when absent). -/
structure InvoiceObj where
  id : String
  subscription : Option String
  customer : String
deriving DecidableEq

/-- A Stripe price, restricted to the fields the handlers read. -/
structure PriceObj where
  id : String
  product : String
deriving DecidableEq

/-- One element of `subscription.items.data`. -/
structure SubItem where
  price : PriceObj
deriving DecidableEq

/-- A Stripe subscription, restricted to the fields index.js reads. -/
structure SubscriptionObj where
  metadataUid : Option String
  items : List SubItem
deriving DecidableEq

/-- A Stripe product with its operator-authored metadata. -/
structure ProductObj where
  name : String
  metaCredits : Option String
  metaIsUnlimited : Option String
  metaPlanName : Option String
deriving DecidableEq

/-- A checkout session, restricted to the fields part_003 reads
(`invoice` is `null` for sessions without an invoice). -/
structure CheckoutSession where
  id : String
  clientReferenceId : Option String
  subscription : Option String
  customer : Option String
  invoice : Option String
deriving DecidableEq

/-- A decoded Stripe event as dispatched by index.js. -/
inductive StripeEventIdx where
  | invoicePaymentSucceeded (inv : InvoiceObj)
  | invoicePaymentFailed (inv : InvoiceObj)
  | subscriptionDeleted (metadataUid : Option String)
  | otherEvent
deriving DecidableEq

/-- The Stripe API as seen by index.js: lookups by id, with `none`
modelling a thrown (network) error. -/
structure StripeEnv where
  subscriptions : String → Option SubscriptionObj
  products : String → Option ProductObj

/-- The JSON body index.js sends back. -/
inductive RespBody where
  | webhookError
  | receivedTrue
  | uidMissingError
  | internalError
deriving DecidableEq

/-- An external call performed by the index.js webhook handler, in order:
Stripe lookups and Firestore merge-`set`s (with the exact field values the
handler writes). -/
inductive ExtOp where
  | retrieveSubscription (id : String)
  | retrieveProduct (id : String)
  | setUserIndexInvoice (uid : String) (credits : JsNum) (isUnlimited : Bool)
      (plan : String) (subscriptionId : String) (customerId : String) (now : String)
  | setUserIndexCancel (uid : String) (now : String)
deriving DecidableEq

/-- The terminal outcome of one index.js webhook request: HTTP status,
response body, and the external calls made. -/
structure HandlerResult where
  status : Nat
  body : RespBody
  ops : List ExtOp
deriving DecidableEq

/-- The index.js `POST /webhook` handler (lines 28-154).  `event = none`
models `stripe.webhooks.constructEvent` throwing (missing/invalid
signature or stale timestamp), which returns 400 before any other call.
A failing Stripe lookup is caught and answered with 500; a subscription
without a `uid` in its metadata is acknowledged with the
`{status:"error"}` JSON body; everything else falls through to
`res.json({received:true})`. -/
def handleWebhookIndex (event : Option StripeEventIdx) (env : StripeEnv)
    (now : String) : HandlerResult :=
  match event with
  | none => { status := 400, body := .webhookError, ops := [] }
  | some ev =>
    match ev with
    | .invoicePaymentSucceeded inv =>
      match inv.subscription with
      | none => { status := 200, body := .receivedTrue, ops := [] }
      | some subId =>
        match env.subscriptions subId with
        | none =>
          { status := 500, body := .internalError,
            ops := [.retrieveSubscription subId] }
        | some sub =>
          match sub.metadataUid with
          | none =>
            { status := 200, body := .uidMissingError,
              ops := [.retrieveSubscription subId] }
          | some uid =>
            match sub.items.head? with
            | none =>
              { status := 500, body := .internalError,
                ops := [.retrieveSubscription subId] }
            | some item =>
              match env.products item.price.product with
              | none =>
                { status := 500, body := .internalError,
                  ops := [.retrieveSubscription subId,
                          .retrieveProduct item.price.product] }
              | some product =>
                let credits := resolveCredits product.metaCredits
                let isUnl := product.metaIsUnlimited == some "true"
                let plan := jsOrStr product.metaPlanName product.name
                { status := 200, body := .receivedTrue,
                  ops := [.retrieveSubscription subId,
                          .retrieveProduct item.price.product,
                          .setUserIndexInvoice uid
                            (if isUnl then some 999999 else credits)
                            isUnl plan subId inv.customer now] }
    | .invoicePaymentFailed _ => { status := 200, body := .receivedTrue, ops := [] }
    | .subscriptionDeleted muid =>
      match muid with
      | none => { status := 200, body := .receivedTrue, ops := [] }
      | some uid =>
        { status := 200, body := .receivedTrue,
          ops := [.setUserIndexCancel uid now] }
    | .otherEvent => { status := 200, body := .receivedTrue, ops := [] }

/-- The Firestore `users` collection. -/
abbrev Store := String → Option UserDoc

/-- Applies one external operation to the store (Stripe lookups are
read-only). -/
def applyOp (store : Store) : ExtOp → Store
  | .retrieveSubscription _ => store
  | .retrieveProduct _ => store
  | .setUserIndexInvoice uid credits isUnl plan subId custId now => fun u =>
    if u = uid then
      some
        { credits := credits
          isUnlimited := isUnl
          plan := plan
          lastPaymentStatus := some "active"
          subscriptionId := some subId
          stripeCustomerId := some custId
          updatedAt := some now
          payments := paymentsOf (store uid) }
    else store u
  | .setUserIndexCancel uid now => fun u =>
    if u = uid then cancelIndex (store uid) now else store u

/-- Applies a list of external operations in order. -/
def applyOps (store : Store) (ops : List ExtOp) : Store :=
  ops.foldl applyOp store

/-- The `EntitlementDelta` computed by part_003's
`checkout.session.completed` branch (lines 67-85): metadata resolution
plus `invoiceId := session.invoice`. -/
def checkoutDelta_part003 (session : CheckoutSession) (product : ProductObj) :
    DeltaData :=
  { creditsToAdd := resolveCredits product.metaCredits
    isUnlimited := product.metaIsUnlimited == some "true"
    planName := jsOrStr product.metaPlanName product.name
    subscriptionId := session.subscription
    customerId := session.customer
    invoiceId := session.invoice }

/-- Sequential redelivery: fold `updateFirestoreUser` (part_002) over a
list of delta/timestamp pairs. -/
def applyAll002 (doc : Option UserDoc) (l : List (DeltaData × String)) :
    Option UserDoc :=
  l.foldl (fun s q => updateFirestoreUser_part002 s q.1 q.2) doc

/-- Number of ledger entries whose `invoiceId` equals the given source id. -/
def countSource (ps : List LedgerEntry) (i : Option String) : Nat :=
  ps.countP fun p => decide (p.invoiceId = i)

/-- A user record at 10 credits with an empty ledger. -/
def mdoc10 : UserDoc :=
  { credits := some 10, isUnlimited := false, plan := "Free",
    lastPaymentStatus := some "active", subscriptionId := none,
    stripeCustomerId := none, updatedAt := none, payments := [] }

/-- A 50-credit entitlement delta for invoice `in_1`. -/
def delta50 : DeltaData :=
  { creditsToAdd := some 50, isUnlimited := false, planName := "Pro",
    subscriptionId := some "sub_1", customerId := some "cus_1",
    invoiceId := some "in_1" }

/-- An unlimited-plan delta for invoice `in_9`. -/
def deltaUnl : DeltaData :=
  { creditsToAdd := some 0, isUnlimited := true, planName := "Ultra",
    subscriptionId := some "sub_1", customerId := some "cus_1",
    invoiceId := some "in_9" }

/-- A user record holding the unlimited sentinel, flagged unlimited, whose
ledger records invoice `in_1`. -/
def mdocUnl : UserDoc :=
  { credits := some 999999, isUnlimited := true, plan := "Ultra",
    lastPaymentStatus := some "active", subscriptionId := none,
    stripeCustomerId := none, updatedAt := none,
    payments := [{ sessionId := none, invoiceId := some "in_1", amount := none,
                   credits := some (some 0), date := some "t0", status := none }] }

/-- A non-unlimited 50-credit renewal delta for the fresh invoice `in_2`. -/
def deltaRenew : DeltaData :=
  { creditsToAdd := some 50, isUnlimited := false, planName := "Pro",
    subscriptionId := none, customerId := some "cus_1",
    invoiceId := some "in_2" }

/-- A Stripe environment with one subscription (`sub_1`, uid `user_1`) and
one product (`prod_1`, metadata credits "50", isUnlimited "false",
planName "Pro"). -/
def env3 : StripeEnv :=
  { subscriptions := fun i =>
      if i = "sub_1" then
        some { metadataUid := some "user_1",
               items := [{ price := { id := "price_1", product := "prod_1" } }] }
      else none
    products := fun i =>
      if i = "prod_1" then
        some { name := "ProdName", metaCredits := some "50",
               metaIsUnlimited := some "false", metaPlanName := some "Pro" }
      else none }

/-- A store holding `mdoc10` under `user_1`. -/
def store3 : Store := fun u => if u = "user_1" then some mdoc10 else none

/-- A checkout session that carries no invoice identifier. -/
def sessionNoInvoice : CheckoutSession :=
  { id := "cs_1", clientReferenceId := some "user_1",
    subscription := some "sub_1", customer := some "cus_1", invoice := none }

/-- A one-time-purchase product worth 25 credits. -/
def productPack : ProductObj :=
  { name := "Pack", metaCredits := some "25", metaIsUnlimited := none,
    metaPlanName := none }

/-- A user record whose ledger already holds an entry without an
`invoiceId` (as written by a checkout without an invoice). -/
def mdocNoInvoiceEntry : UserDoc :=
  { credits := some 25, isUnlimited := false, plan := "Pack",
    lastPaymentStatus := some "active", subscriptionId := none,
    stripeCustomerId := some "cus_1", updatedAt := some "t0",
    payments := [{ sessionId := none, invoiceId := none, amount := none,
                   credits := some (some 25), date := some "t0",
                   status := none }] }

/-- The entry of `mdocNoInvoiceEntry`'s ledger. -/
def entryNoInvoice : LedgerEntry :=
  { sessionId := none, invoiceId := none, amount := none,
    credits := some (some 25), date := some "t0", status := none }

/-- The spec's §8 scenario applied through part_000's `invoice.paid`
handler: metadata credits "50", user at 10 credits, empty ledger. -/
def scenarioRun000 : Option UserDoc :=
  invoicePaidUpdate_part000 (some mdoc10) "in_1" 1999 "sub_1"
    (some "50") (some "false") (some "Pro") "ProdName" "t1"

/-- The same invoice event as decoded by index.js. -/
def scenarioEventIdx : StripeEventIdx :=
  .invoicePaymentSucceeded
    { id := "in_1", subscription := some "sub_1", customer := "cus_1" }

/-- The store after index.js handles the scenario invoice event against
`store3` (the user at 10 credits) using `env3` (metadata credits "50"). -/
def scenarioRunIdx : Store :=
  applyOps store3 (handleWebhookIndex (some scenarioEventIdx) env3 "t1").ops

/-- part_000's `invoice.paid` fulfilment delivered twice with the same
invoice id `in_1` (two delivery timestamps). -/
def redeliver000 : Option UserDoc :=
  invoicePaidUpdate_part000 scenarioRun000 "in_1" 1999 "sub_1"
    (some "50") (some "false") (some "Pro") "ProdName" "t2"

/-- An invoice event whose subscription resolves to an unlimited plan. -/
def eventUnlIdx : StripeEventIdx :=
  .invoicePaymentSucceeded
    { id := "in_9", subscription := some "sub_9", customer := "cus_9" }

/-- A Stripe environment whose product `prod_9` has metadata
`isUnlimited = "true"`. -/
def envUnl : StripeEnv :=
  { subscriptions := fun i =>
      if i = "sub_9" then
        some { metadataUid := some "user_9",
               items := [{ price := { id := "price_9", product := "prod_9" } }] }
      else none
    products := fun i =>
      if i = "prod_9" then
        some { name := "Ultra", metaCredits := some "0",
               metaIsUnlimited := some "true", metaPlanName := some "Ultra" }
      else none }

/-! ## Helper lemmas -/

theorem digit_not_ws (c : Char) (h : c.isDigit = true) : isJsWs c = false := by
  by_contra hw
  have hw2 : isJsWs c = true := by
    cases hb : isJsWs c
    · exact absurd hb hw
    · rfl
  unfold isJsWs at hw2
  simp only [Bool.or_eq_true, beq_iff_eq] at hw2
  rcases hw2 with (((((h1 | h1) | h1) | h1) | h1) | h1) <;> subst h1 <;>
    exact absurd h (by decide)

theorem digit_beq_ne (c d : Char) (h : c.isDigit = true) (hd : d.isDigit = false) :
    (c == d) = false := by
  cases hb : c == d
  · rfl
  · have hcd : c = d := eq_of_beq hb
    subst hcd
    rw [h] at hd
    exact absurd hd (by simp)

theorem mem_arrayUnion_self {α : Type} [DecidableEq α] (xs : List α) (x : α) :
    x ∈ arrayUnion xs x := by
  unfold arrayUnion
  by_cases hx : x ∈ xs
  · simp [hx]
  · simp [hx]

theorem dupCheck_true_of_eq_id (doc : Option UserDoc) (d dp : DeltaData)
    (h : dp.invoiceId = d.invoiceId) (hb : dupCheck doc d = true) :
    dupCheck doc dp = true := by
  unfold dupCheck at hb ⊢
  simp only [h]
  exact hb

theorem dupCheck_after_write002 (snapshot current : Option UserDoc)
    (d dp : DeltaData) (t : String) (h : dp.invoiceId = d.invoiceId) :
    dupCheck (some (applyWrite002 snapshot current d t)) dp = true := by
  unfold dupCheck paymentsOf applyWrite002
  simp only [List.any_eq_true, decide_eq_true_eq]
  exact ⟨ledgerEntry23 d t, mem_arrayUnion_self _ _, by simp [ledgerEntry23, h]⟩

theorem dupCheck_after_write003 (current : Option UserDoc)
    (d dp : DeltaData) (t : String) (h : dp.invoiceId = d.invoiceId) :
    dupCheck (some (applyWrite003 current d t)) dp = true := by
  unfold dupCheck paymentsOf applyWrite003
  simp only [List.any_eq_true, decide_eq_true_eq]
  exact ⟨ledgerEntry23 d t, mem_arrayUnion_self _ _, by simp [ledgerEntry23, h]⟩

theorem dup_absorb_002 (doc : Option UserDoc) (d dp : DeltaData) (t tp : String)
    (h : dp.invoiceId = d.invoiceId) :
    updateFirestoreUser_part002 (updateFirestoreUser_part002 doc d t) dp tp
      = updateFirestoreUser_part002 doc d t := by
  unfold updateFirestoreUser_part002
  by_cases hb : dupCheck doc d = true
  · simp only [hb, if_true]
    simp [dupCheck_true_of_eq_id doc d dp h hb]
  · simp only [hb, if_false, Bool.not_eq_true] at hb ⊢
    simp [hb, dupCheck_after_write002 doc doc d dp t h]

theorem dup_absorb_003 (doc : Option UserDoc) (d dp : DeltaData) (t tp : String)
    (h : dp.invoiceId = d.invoiceId) :
    updateFirestoreUser_part003 (updateFirestoreUser_part003 doc d t) dp tp
      = updateFirestoreUser_part003 doc d t := by
  unfold updateFirestoreUser_part003
  by_cases hb : dupCheck doc d = true
  · simp only [hb, if_true]
    simp [dupCheck_true_of_eq_id doc d dp h hb]
  · simp only [hb, if_false, Bool.not_eq_true] at hb ⊢
    simp [hb, dupCheck_after_write003 doc d dp t h]

theorem dupCheck_false_of_fresh (doc : Option UserDoc) (d : DeltaData)
    (hfresh : ∀ e ∈ paymentsOf doc, ¬ e.invoiceId = d.invoiceId) :
    dupCheck doc d = false := by
  unfold dupCheck
  rw [List.any_eq_false]
  intro p hp
  simp [hfresh p hp]

theorem parseIntJS_digit_list (s : String) (c : Char) (cs : List Char)
    (hl : s.toList = c :: cs) (h : ∀ x ∈ c :: cs, x.isDigit = true) :
    parseIntJS s = some ((decNatAux 0 (c :: cs) : Nat) : Int) := by
  have hc : c.isDigit = true := h c (List.mem_cons_self c cs)
  have hdw : List.dropWhile isJsWs (c :: cs) = c :: cs := by
    simp [List.dropWhile_cons, digit_not_ws c hc]
  have hminus : (c == '-') = false := digit_beq_ne c '-' hc (by decide)
  have hplus : (c == '+') = false := digit_beq_ne c '+' hc (by decide)
  have hss : stripSign (c :: cs) = (false, c :: cs) := by
    simp [stripSign, hminus, hplus]
  have hhex : dropHexMark (c :: cs) = none := by
    cases cs with
    | nil => rfl
    | cons c1 cs1 =>
      have hc1 : c1.isDigit = true := h c1 (by simp)
      have hx : (c1 == 'x') = false := digit_beq_ne c1 'x' hc1 (by decide)
      have hX : (c1 == 'X') = false := digit_beq_ne c1 'X' hc1 (by decide)
      simp [dropHexMark, hx, hX]
  unfold parseIntJS
  rw [hl, hdw, hss]
  unfold parseIntTail
  simp only []
  rw [hhex]
  simp [hc, intOfSign]

/-! ## Claims -/

/-- C1 (amended): for the `updateFirestoreUser` reconciler of part_002,
sequential redelivery of any number of deltas carrying the same
`invoiceId` applies the credit exactly once — every delivery after the
first is absorbed — and afterwards the `payments` ledger holds exactly one
entry for that id, with the balance increased by exactly `creditsToAdd`
(non-unlimited case, starting from a ledger with no entry for the id).
The part_000 `invoice.paid` handler has no duplicate check and violates
the original claim (see the counterexample). -/
theorem c1_dedup_exactly_once (doc : Option UserDoc) (d : DeltaData) (t : String)
    (l : List (DeltaData × String))
    (hl : ∀ q ∈ l, q.1.invoiceId = d.invoiceId)
    (hfresh : ∀ e ∈ paymentsOf doc, ¬ e.invoiceId = d.invoiceId)
    (hu : d.isUnlimited = false) :
    applyAll002 (updateFirestoreUser_part002 doc d t) l
      = updateFirestoreUser_part002 doc d t ∧
    countSource (paymentsOf (updateFirestoreUser_part002 doc d t)) d.invoiceId = 1 ∧
    docCredits (updateFirestoreUser_part002 doc d t)
      = jsAdd (some (currentCredits002 doc)) d.creditsToAdd := by
  have hdup : dupCheck doc d = false := dupCheck_false_of_fresh doc d hfresh
  have hnotmem : ledgerEntry23 d t ∉ paymentsOf doc := by
    intro hmem
    exact hfresh _ hmem (by simp [ledgerEntry23])
  have hpay : paymentsOf (updateFirestoreUser_part002 doc d t)
      = paymentsOf doc ++ [ledgerEntry23 d t] := by
    unfold updateFirestoreUser_part002
    simp only [hdup, Bool.false_eq_true, if_false]
    show arrayUnion (paymentsOf doc) (ledgerEntry23 d t)
      = paymentsOf doc ++ [ledgerEntry23 d t]
    unfold arrayUnion
    simp [hnotmem]
  refine ⟨?_, ?_, ?_⟩
  · induction l with
    | nil => rfl
    | cons q l2 ih =>
      have h1 : q.1.invoiceId = d.invoiceId := hl q (List.mem_cons_self q l2)
      unfold applyAll002
      rw [List.foldl_cons]
      rw [dup_absorb_002 doc d q.1 t q.2 h1]
      exact ih fun p hp => hl p (List.mem_cons_of_mem q hp)
  · rw [hpay]
    unfold countSource
    rw [List.countP_append]
    have h0 : (paymentsOf doc).countP
        (fun p => decide (p.invoiceId = d.invoiceId)) = 0 := by
      rw [List.countP_eq_zero]
      intro e he
      simp [hfresh e he]
    rw [h0]
    simp [List.countP_cons, ledgerEntry23]
  · unfold updateFirestoreUser_part002
    simp only [hdup, Bool.false_eq_true, if_false]
    unfold docCredits applyWrite002
    simp [hu]

/-- Witness for C1: a user at 10 credits receiving the `in_1` delta three
times sequentially ends at exactly one application and one ledger entry. -/
theorem c1_dedup_exactly_once_witness :
    applyAll002 (updateFirestoreUser_part002 (some mdoc10) delta50 "t1")
        [(delta50, "t2"), (delta50, "t3")]
      = updateFirestoreUser_part002 (some mdoc10) delta50 "t1" ∧
    countSource (paymentsOf (updateFirestoreUser_part002 (some mdoc10) delta50 "t1"))
      delta50.invoiceId = 1 ∧
    docCredits (updateFirestoreUser_part002 (some mdoc10) delta50 "t1")
      = jsAdd (some (currentCredits002 (some mdoc10))) delta50.creditsToAdd :=
  c1_dedup_exactly_once (some mdoc10) delta50 "t1" [(delta50, "t2"), (delta50, "t3")]
    (by decide) (by decide) rfl

/-- Counterexample to C1 as stated: part_000's `invoice.paid` handler
(cited by the claim) has no duplicate check, so delivering the same
invoice `in_1` twice credits the user twice (10 → 110, not 60) and leaves
two ledger entries whose source id is `in_1`. -/
theorem c1_counterexample_part000_double_credit :
    docCredits redeliver000 = some 110 ∧ (some 110 : JsNum) ≠ some 60 ∧
    ((paymentsOf redeliver000).countP fun p => decide (p.sessionId = some "in_1")) = 2 := by
  decide

/-- C2 (amended): when two deliveries of the same event serialize — the
first `updateFirestoreUser` (part_003) completes before the second reads —
the duplicate check absorbs the second delivery and the final state equals
a single application.  Under a true race (both reads before either write)
the check does not help: see the counterexample. -/
theorem c2_serialized_single_application (doc : Option UserDoc) (d dp : DeltaData)
    (t tp : String) (h : dp.invoiceId = d.invoiceId) :
    updateFirestoreUser_part003 (updateFirestoreUser_part003 doc d t) dp tp
      = updateFirestoreUser_part003 doc d t :=
  dup_absorb_003 doc d dp t tp h

/-- Witness for C2: serialized redelivery of the `in_1` delta is absorbed. -/
theorem c2_serialized_single_application_witness :
    updateFirestoreUser_part003 (updateFirestoreUser_part003 (some mdoc10) delta50 "t1")
        delta50 "t2"
      = updateFirestoreUser_part003 (some mdoc10) delta50 "t1" :=
  c2_serialized_single_application (some mdoc10) delta50 delta50 "t1" "t2" rfl

/-- Counterexample to C2 as stated: two concurrent deliveries of the same
`in_1` event that both read the same snapshot both pass the duplicate
check.  With part_003's `FieldValue.increment` the user is credited twice
(10 → 110, where a single application gives 60); with part_002's
read-modify-write the final balance happens to equal a single application
(both tasks write the same client-computed 60) but the `arrayUnion`
append does not deduplicate by id — the entries differ in `date` — so the
ledger ends with two entries for `in_1`. -/
theorem c2_counterexample_race_double_credit :
    docCredits (raceSameSnapshot_part003 (some mdoc10) delta50 delta50 "t1" "t2")
      = some 110 ∧
    docCredits (updateFirestoreUser_part003 (some mdoc10) delta50 "t1") = some 60 ∧
    (some 110 : JsNum) ≠ some 60 ∧
    docCredits (raceSameSnapshot_part002 (some mdoc10) delta50 delta50 "t1" "t2")
      = some 60 ∧
    countSource (paymentsOf (raceSameSnapshot_part002 (some mdoc10) delta50 delta50 "t1" "t2"))
      (some "in_1") = 2 := by
  decide

/-- C3 (amended): on the spec's scenario — product metadata credits "50",
isUnlimited "false", planName "Pro"; user at 10 credits with an empty
ledger — part_000's `invoice.paid` handler yields credits 60, one new
ledger entry and `lastPaymentStatus = "active"`, whereas index.js's
`invoice.payment_succeeded` handler (cited by the claim) overwrites the
balance with the resolved amount, yielding credits 50 and no ledger
entry. -/
theorem c3_scenario_credits :
    docCredits scenarioRun000 = some 60 ∧
    (paymentsOf scenarioRun000).length = 1 ∧
    docLastPaymentStatus scenarioRun000 = some "active" ∧
    docCredits (scenarioRunIdx "user_1") = some 50 ∧
    paymentsOf (scenarioRunIdx "user_1") = [] ∧
    docLastPaymentStatus (scenarioRunIdx "user_1") = some "active" := by
  decide

/-- Counterexample to C3 as stated: under index.js the scenario produces
credits 50 — the old balance is discarded, not added to — and the ledger
gains no entry at all. -/
theorem c3_counterexample_index_overwrite :
    docCredits (scenarioRunIdx "user_1") = some 50 ∧
    (some 50 : JsNum) ≠ some 60 ∧
    countSource (paymentsOf (scenarioRunIdx "user_1")) (some "in_1") = 0 := by
  decide

/-- C4 (amended, first half): an event resolving to a product with
`isUnlimited="true"` always sets `credits` to the 999999 sentinel,
regardless of the prior balance: in the part_002 and part_003 reconcilers
(for any non-duplicate delta), and through the index.js handler for any
prior store contents.  The second half of the claim fails: see the
counterexample. -/
theorem c4_unlimited_sentinel :
    (∀ (doc : Option UserDoc) (data : DeltaData) (t : String),
      data.isUnlimited = true → dupCheck doc data = false →
      docCredits (updateFirestoreUser_part002 doc data t) = some 999999 ∧
      docCredits (updateFirestoreUser_part003 doc data t) = some 999999) ∧
    ∀ store : Store,
      docCredits ((applyOps store
        (handleWebhookIndex (some eventUnlIdx) envUnl "t1").ops) "user_9")
        = some 999999 := by
  constructor
  · intro doc data t hu hdup
    constructor
    · unfold updateFirestoreUser_part002
      simp only [hdup, Bool.false_eq_true, if_false]
      unfold docCredits applyWrite002
      simp [hu]
    · unfold updateFirestoreUser_part003
      simp only [hdup, Bool.false_eq_true, if_false]
      unfold docCredits applyWrite003
      simp [hu]
  · intro store
    rfl

/-- Witness for C4: the unlimited delta applied to the 10-credit user
yields the sentinel in both reconcilers. -/
theorem c4_unlimited_sentinel_witness :
    docCredits (updateFirestoreUser_part002 (some mdoc10) deltaUnl "t1")
      = some 999999 ∧
    docCredits (updateFirestoreUser_part003 (some mdoc10) deltaUnl "t1")
      = some 999999 :=
  c4_unlimited_sentinel.1 (some mdoc10) deltaUnl "t1" rfl (by decide)

/-- Counterexample to C4 as stated: a non-unlimited 50-credit renewal
applied (part_002) to a record still flagged unlimited at the 999999
sentinel does increment the sentinel — the result is 1000049, not
999999. -/
theorem c4_counterexample_sentinel_incremented :
    docCredits (updateFirestoreUser_part002 (some mdocUnl) deltaRenew "t1")
      = some 1000049 ∧
    (some 1000049 : JsNum) ≠ some 999999 := by
  decide

/-- C5 (amended): index.js's `customer.subscription.deleted` handler is
idempotent — applying it twice yields the same state as applying it once —
with terminal state credits 0, isUnlimited false, plan "expired",
lastPaymentStatus "canceled", and it never touches the `payments` ledger.
part_002's cancellation branch (also cited) writes the same terminal
state except that it does not write `lastPaymentStatus`: see the
counterexample. -/
theorem c5_cancellation_idempotent (doc : Option UserDoc) (t1 t2 : String) :
    cancelIndex (cancelIndex doc t1) t2 = cancelIndex doc t2 ∧
    ∃ u, cancelIndex doc t1 = some u ∧ u.credits = some 0 ∧
      u.isUnlimited = false ∧ u.plan = "expired" ∧
      u.lastPaymentStatus = some "canceled" ∧ u.payments = paymentsOf doc := by
  cases doc <;> simp [cancelIndex, paymentsOf]

/-- Counterexample to C5 as stated: part_002's cancellation branch leaves
`lastPaymentStatus` at its previous value ("active" here), never setting
it to "canceled". -/
theorem c5_counterexample_part002_no_status :
    docLastPaymentStatus (cancel_part002 (some mdoc10) "t1") = some "active" ∧
    (some "active" : Option String) ≠ some "canceled" := by
  decide

/-- C6 (amended): the credits-metadata resolution
`parseInt(product.metadata.credits || "0")` never throws (it is a total
function, so a metadata defect cannot fail the event); missing or empty
metadata resolves to the zero-credit delta; and a plain decimal-digit
string resolves to its non-negative value.  But a malformed string is not
mapped to zero — it yields `NaN` — and a negative decimal string yields a
negative amount: see the counterexample. -/
theorem c6_credits_resolution :
    resolveCredits none = some 0 ∧
    resolveCredits (some "") = some 0 ∧
    ∀ s : String, s.toList ≠ [] → (∀ x ∈ s.toList, x.isDigit = true) →
      resolveCredits (some s) = some ((decNatAux 0 s.toList : Nat) : Int) ∧
      0 ≤ ((decNatAux 0 s.toList : Nat) : Int) := by
  refine ⟨by decide, by decide, ?_⟩
  intro s hne hdig
  have hs : s ≠ "" := by
    intro h
    subst h
    exact hne rfl
  have hres : resolveCredits (some s) = parseIntJS s := by
    simp [resolveCredits, jsOrStr, hs]
  cases hl : s.toList with
  | nil => exact absurd hl hne
  | cons c cs =>
    rw [hl] at hdig
    constructor
    · rw [hres]
      exact parseIntJS_digit_list s c cs hl hdig
    · exact Int.natCast_nonneg _

/-- Witness for C6: missing metadata resolves to zero and the digit string
"50" resolves to its (non-negative) value. -/
theorem c6_credits_resolution_witness :
    resolveCredits none = some 0 ∧
    (resolveCredits (some "50") = some ((decNatAux 0 "50".toList : Nat) : Int) ∧
      0 ≤ ((decNatAux 0 "50".toList : Nat) : Int)) :=
  ⟨c6_credits_resolution.1, c6_credits_resolution.2.2 "50" (by decide) (by decide)⟩

/-- Counterexample to C6 as stated: the malformed metadata string "abc"
resolves to `NaN` (`none`), not to a zero-credit delta, and "-5" resolves
to the negative amount -5 — `creditsToAdd` is not always a non-negative
integer. -/
theorem c6_counterexample_nan_and_negative :
    resolveCredits (some "abc") = none ∧
    resolveCredits (some "-5") = some (-5) ∧ (-5 : Int) < 0 := by
  decide

/-- C7 (amended): index.js's `invoice.payment_failed` branch only logs —
the handler acknowledges with 200 `{received:true}`, performs no Stripe
lookup and no store write, and leaves every user record (in particular
`lastPaymentStatus`) unchanged.  The claim's asserted update of
`lastPaymentStatus` to "payment-failed" does not happen: see the
counterexample. -/
theorem c7_payment_failed_noop (inv : InvoiceObj) (env : StripeEnv)
    (now : String) (store : Store) :
    handleWebhookIndex (some (.invoicePaymentFailed inv)) env now
      = { status := 200, body := .receivedTrue, ops := [] } ∧
    applyOps store
      (handleWebhookIndex (some (.invoicePaymentFailed inv)) env now).ops
      = store :=
  ⟨rfl, rfl⟩

/-- Counterexample to C7 as stated: after index.js handles
`invoice.payment_failed`, the user record still carries its previous
`lastPaymentStatus` ("active"), not "payment-failed". -/
theorem c7_counterexample_status_not_written :
    (applyOps store3
      (handleWebhookIndex
        (some (.invoicePaymentFailed
          { id := "in_1", subscription := some "sub_1", customer := "cus_1" }))
        env3 "t1").ops) "user_1" = some mdoc10 ∧
    mdoc10.lastPaymentStatus = some "active" ∧
    (some "active" : Option String) ≠ some "payment-failed" := by
  decide

/-- C8: when signature verification fails (`constructEvent` throws —
missing or invalid signature, or stale timestamp), the webhook answers
400 with the error body, makes no Stripe call and no store write, and the
store is unchanged. -/
theorem c8_bad_signature_rejected (env : StripeEnv) (now : String) (store : Store) :
    handleWebhookIndex none env now
      = { status := 400, body := .webhookError, ops := [] } ∧
    applyOps store (handleWebhookIndex none env now).ops = store :=
  ⟨rfl, rfl⟩

/-- C9: an `invoice.payment_succeeded` event whose invoice carries no
subscription reference is acknowledged immediately with 200
`{received:true}`; no Stripe lookup and no store write happen, so every
user record is unchanged. -/
theorem c9_no_subscription_ack (inv : InvoiceObj) (env : StripeEnv)
    (now : String) (store : Store) (h : inv.subscription = none) :
    handleWebhookIndex (some (.invoicePaymentSucceeded inv)) env now
      = { status := 200, body := .receivedTrue, ops := [] } ∧
    applyOps store
      (handleWebhookIndex (some (.invoicePaymentSucceeded inv)) env now).ops
      = store := by
  obtain ⟨id, sub, cust⟩ := inv
  simp only at h
  subst h
  exact ⟨rfl, rfl⟩

/-- Witness for C9: a concrete invoice without a subscription is
acknowledged with no external calls. -/
theorem c9_no_subscription_ack_witness :
    handleWebhookIndex
        (some (.invoicePaymentSucceeded
          { id := "in_1", subscription := none, customer := "cus_1" }))
        env3 "t1"
      = { status := 200, body := .receivedTrue, ops := [] } ∧
    applyOps store3
      (handleWebhookIndex
        (some (.invoicePaymentSucceeded
          { id := "in_1", subscription := none, customer := "cus_1" }))
        env3 "t1").ops
      = store3 :=
  c9_no_subscription_ack
    { id := "in_1", subscription := none, customer := "cus_1" } env3 "t1" store3 rfl

/-- C10: the part_003 duplicate check compares `p.invoiceId ===
data.invoiceId` and is true when both are absent, so a checkout session
carrying no invoice identifier is classified as a duplicate of any ledger
entry with an absent `invoiceId`: the reconciler returns the record
unchanged and credits nothing. -/
theorem c10_absent_id_collides (session : CheckoutSession) (product : ProductObj)
    (doc : UserDoc) (e : LedgerEntry) (t : String)
    (hinv : session.invoice = none) (he : e ∈ doc.payments)
    (hid : e.invoiceId = none) :
    updateFirestoreUser_part003 (some doc)
      (checkoutDelta_part003 session product) t = some doc := by
  have hdup : dupCheck (some doc) (checkoutDelta_part003 session product) = true := by
    unfold dupCheck paymentsOf
    simp only [List.any_eq_true, decide_eq_true_eq]
    exact ⟨e, he, by simp [checkoutDelta_part003, hid, hinv]⟩
  simp [updateFirestoreUser_part003, hdup]

/-- Witness for C10: a 25-credit checkout with no invoice id against a
user whose ledger holds an id-less entry is skipped entirely. -/
theorem c10_absent_id_collides_witness :
    updateFirestoreUser_part003 (some mdocNoInvoiceEntry)
      (checkoutDelta_part003 sessionNoInvoice productPack) "t1"
      = some mdocNoInvoiceEntry :=
  c10_absent_id_collides sessionNoInvoice productPack mdocNoInvoiceEntry
    entryNoInvoice "t1" rfl (by decide) rfl

end Schriftbot
